import Mathlib

/-!
Verification of the SchwiftyBox authentication / ID-allocation core.

The definitions below are a shallow embedding of the Go source:
- the JWT service (`internal/jwt`, in both its simple and its kind-tagged
  variant) with signing modelled as tagging a token with the secret it was
  signed with (HMAC validity = the verifying secret equals the signing one);
- the per-prefix ID allocator (`internal/item.getNextID`) over an explicit
  counter table;
- the user store (`internal/user`), the refresh handlers (both variants),
  the password-reset handlers, and the richer `CreateUser`.

Machine time is modelled as seconds-since-epoch integers, exactly the
granularity the Go code persists into the `exp` claim via `Unix()`.
-/

namespace SchwiftyBox

/-! ### Token codec (internal/jwt) -/

/-- The claim set carried by a token: the `email` claim, the optional
`token_type` kind discriminator, and the `exp` expiry instant in
seconds-since-epoch (the value of `time.Time.Unix()` in the source). -/
structure Claims where
  email : Option String
  tokenType : Option String
  exp : Int
deriving DecidableEq

/-- A signed token: the claim set plus the secret it was signed with.
`signedWith` models the HMAC-SHA256 signature: verification against a
secret succeeds exactly when the token was signed with that secret. -/
structure Token where
  claims : Claims
  signedWith : String
deriving DecidableEq

/-- Errors surfaced by the jwt library: signature mismatch, expiry in the
past, or `jwt.ErrInvalidKey` (returned by the service for a wrong or
missing claim). -/
inductive JwtError where
  | signatureInvalid
  | tokenExpired
  | invalidKey
deriving DecidableEq

/-- `jwt.Parse` with the service key function: the signature must verify
against the configured secret and the token must not be expired at the
wall-clock instant `now` (jwt/v5 treats a token as valid only while
`now < exp`). -/
def jwtParse (secret : String) (now : Int) (tok : Token) : Except JwtError Claims :=
  if tok.signedWith ≠ secret then .error .signatureInvalid
  else if tok.claims.exp ≤ now then .error .tokenExpired
  else .ok tok.claims

/-- `GenerateToken` (both jwt variants): email claim plus `exp = now + expiry`,
no kind discriminator. -/
def generateToken (secret email : String) (expiry now : Int) : Token :=
  { claims := { email := some email, tokenType := none, exp := now + expiry },
    signedWith := secret }

/-- `GenerateAccessToken` (kind-tagged jwt variant): adds `token_type = "access"`. -/
def generateAccessToken (secret : String) (accessDur : Int) (email : String) (now : Int) : Token :=
  { claims := { email := some email, tokenType := some "access", exp := now + accessDur },
    signedWith := secret }

/-- `GenerateRefreshToken` (kind-tagged jwt variant): adds `token_type = "refresh"`. -/
def generateRefreshToken (secret : String) (refreshDur : Int) (email : String) (now : Int) : Token :=
  { claims := { email := some email, tokenType := some "refresh", exp := now + refreshDur },
    signedWith := secret }

/-- `TokenResponse`: the `{token, refresh_token}` JSON body. -/
structure TokenResponse where
  token : Token
  refreshToken : Token
deriving DecidableEq

/-- `GenerateTokenPair` (kind-tagged jwt variant): a fresh access token and a
fresh refresh token. -/
def generateTokenPair (secret : String) (accessDur refreshDur : Int) (email : String)
    (now : Int) : TokenResponse :=
  { token := generateAccessToken secret accessDur email now,
    refreshToken := generateRefreshToken secret refreshDur email now }

/-- `GenerateTokenPair` (simple jwt variant): both tokens are produced by
`GenerateToken` and carry no kind discriminator. -/
def generateTokenPairSimple (secret : String) (accessDur refreshDur : Int) (email : String)
    (now : Int) : TokenResponse :=
  { token := generateToken secret email accessDur now,
    refreshToken := generateToken secret email refreshDur now }

/-- `ValidateToken` (kind-tagged jwt variant): parse, then reject when a
`token_type` claim is present and differs from `"access"` (a token without
the claim is accepted for backward compatibility), then extract the email. -/
def validateToken (secret : String) (now : Int) (tok : Token) : Except JwtError String :=
  match jwtParse secret now tok with
  | .error e => .error e
  | .ok claims =>
    match claims.tokenType with
    | some t =>
      if t ≠ "access" then .error .invalidKey
      else
        match claims.email with
        | some e => .ok e
        | none => .error .invalidKey
    | none =>
      match claims.email with
      | some e => .ok e
      | none => .error .invalidKey

/-- `ValidateRefreshToken` (kind-tagged jwt variant): symmetric to
`validateToken` but requires the kind, when present, to be `"refresh"`. -/
def validateRefreshToken (secret : String) (now : Int) (tok : Token) : Except JwtError String :=
  match jwtParse secret now tok with
  | .error e => .error e
  | .ok claims =>
    match claims.tokenType with
    | some t =>
      if t ≠ "refresh" then .error .invalidKey
      else
        match claims.email with
        | some e => .ok e
        | none => .error .invalidKey
    | none =>
      match claims.email with
      | some e => .ok e
      | none => .error .invalidKey

/-- `ValidateToken` (simple jwt variant): parse and extract the email; no
kind discrimination. -/
def validateTokenSimple (secret : String) (now : Int) (tok : Token) : Except JwtError String :=
  match jwtParse secret now tok with
  | .error e => .error e
  | .ok claims =>
    match claims.email with
    | some e => .ok e
    | none => .error .invalidKey

/-- `Encode` of the Token Codec: sign an arbitrary claim set with the
configured secret (`jwt.NewWithClaims` + `SignedString`). -/
def encode (secret : String) (c : Claims) : Token :=
  { claims := c, signedWith := secret }

/-- `Decode` of the Token Codec: `jwt.Parse` with signature and expiry
checks. -/
def decode (secret : String) (now : Int) (tok : Token) : Except JwtError Claims :=
  jwtParse secret now tok

/-! ### ID Allocator (internal/item.getNextID)

The `backpack_id_next_numbers` table has a unique index on `backpack_id`,
so it is modelled as an association list with at most one row per prefix
string. -/

/-- The committed `backpack_id_next_numbers` table: rows `(backpack_id, number)`. -/
abbrev CounterTable := List (String × Nat)

/-- `tx.Where("backpack_id = ?", p).First(...)`: the first row whose key
matches. -/
def lookupCounter : CounterTable → String → Option Nat
  | [], _ => none
  | r :: t, p => if r.1 = p then some r.2 else lookupCounter t p

/-- `tx.Create(...)`: insert a fresh row. -/
def insertCounter (t : CounterTable) (p : String) (n : Nat) : CounterTable :=
  (p, n) :: t

/-- `tx.Save(...)`: overwrite the matching row (unique per prefix) with the
value computed in Go. -/
def setCounter : CounterTable → String → Nat → CounterTable
  | [], _, _ => []
  | r :: t, p, n => if r.1 = p then (p, n) :: setCounter t p n else r :: setCounter t p n

/-- Decimal representation of a natural number, base 10, most significant
digit first (the digits `fmt` emits for `%d`). -/
def decimalString (n : Nat) : String :=
  if n = 0 then "0"
  else { data := ((Nat.digits 10 n).map (fun d => Char.ofNat (48 + d))).reverse }

/-- `fmt.Sprintf("%04d", n)` for a non-negative count: left-pad the decimal
representation with zeros to width 4; wider values are emitted in full. -/
def formatSeq (n : Nat) : String :=
  { data := List.replicate (4 - (decimalString n).length) '0' ++ (decimalString n).data }

/-- `getNextID`: inside one transaction, read the counter row for the
prefix; if absent insert `number = 1` and use 1, else increment, persist
and use the new value; format the used value as `%04d`. -/
def getNextID (t : CounterTable) (p : String) : String × CounterTable :=
  match lookupCounter t p with
  | none => (formatSeq 1, insertCounter t p 1)
  | some n => (formatSeq (n + 1), setCounter t p (n + 1))

/-- The commit step of one `getNextID` transaction given the value its
`SELECT` observed: insert 1 when the read found no row, else install the
incremented value computed in Go from the read. -/
def commitAlloc (t : CounterTable) (p : String) (readValue : Option Nat) : String × CounterTable :=
  match readValue with
  | none => (formatSeq 1, insertCounter t p 1)
  | some n => (formatSeq (n + 1), setCounter t p (n + 1))

/-- Two concurrent `getNextID` transactions for the same prefix under the
database's default READ COMMITTED isolation, scheduled as: T1 SELECT,
T2 SELECT, T1 UPDATE + COMMIT, T2 UPDATE + COMMIT. This schedule is
permitted because the plain `SELECT` issued by `First` takes no row lock,
and each `Save` writes the value its own transaction computed in Go from
its stale read. Returns both emitted strings and the final table. -/
def getNextIDPairInterleaved (t : CounterTable) (p : String) : String × String × CounterTable :=
  let v1 := lookupCounter t p
  let v2 := lookupCounter t p
  let r1 := commitAlloc t p v1
  let r2 := commitAlloc r1.2 p v2
  (r1.1, r2.1, r2.2)

/-! #### Decimal formatting facts -/

theorem digits10_small (n : Nat) (h1 : 0 < n) (h2 : n < 10) : Nat.digits 10 n = [n] := by
  rw [Nat.digits_def' (by norm_num : (1 : Nat) < 10) h1]
  rw [Nat.div_eq_of_lt h2, Nat.mod_eq_of_lt h2]
  simp

theorem decimalString_length (n : Nat) (h : n ≠ 0) :
    (decimalString n).length = (Nat.digits 10 n).length := by
  unfold decimalString
  rw [if_neg h]
  show (((Nat.digits 10 n).map (fun d => Char.ofNat (48 + d))).reverse).length = _
  rw [List.length_reverse, List.length_map]

theorem formatSeq_length4 (n : Nat) (h1 : n ≠ 0) (h2 : n < 10000) :
    (formatSeq n).length = 4 := by
  have hd : (Nat.digits 10 n).length = Nat.log 10 n + 1 :=
    Nat.digits_len 10 n (by norm_num) h1
  have hpow : n < 10 ^ 4 := by norm_num [h2]
  have hlog : Nat.log 10 n < 4 := Nat.log_lt_of_lt_pow h1 hpow
  have hlen : (decimalString n).length ≤ 4 := by
    rw [decimalString_length n h1, hd]; omega
  have hdata : (decimalString n).data.length = (decimalString n).length := rfl
  show (List.replicate (4 - (decimalString n).length) '0' ++ (decimalString n).data).length = 4
  rw [List.length_append, List.length_replicate]
  omega

theorem formatSeq_wide (n : Nat) (h : 10000 ≤ n) :
    formatSeq n = decimalString n ∧ 5 ≤ (formatSeq n).length := by
  have h1 : n ≠ 0 := by omega
  have hd : (Nat.digits 10 n).length = Nat.log 10 n + 1 :=
    Nat.digits_len 10 n (by norm_num) h1
  have hpow : 10 ^ 4 ≤ n := by norm_num [h]
  have hlog : 4 ≤ Nat.log 10 n := (Nat.pow_le_iff_le_log (by norm_num) h1).mp hpow
  have hlen : 5 ≤ (decimalString n).length := by
    rw [decimalString_length n h1, hd]; omega
  have hzero : 4 - (decimalString n).length = 0 := by omega
  have heq : formatSeq n = decimalString n := by
    unfold formatSeq
    rw [hzero]
    show ({ data := [] ++ (decimalString n).data } : String) = decimalString n
    rw [List.nil_append]
  exact ⟨heq, heq ▸ hlen⟩

theorem formatSeq_one : formatSeq 1 = "0001" := by
  unfold formatSeq decimalString
  rw [digits10_small 1 (by norm_num) (by norm_num)]
  decide

theorem formatSeq_two : formatSeq 2 = "0002" := by
  unfold formatSeq decimalString
  rw [digits10_small 2 (by norm_num) (by norm_num)]
  decide

theorem formatSeq_six : formatSeq 6 = "0006" := by
  unfold formatSeq decimalString
  rw [digits10_small 6 (by norm_num) (by norm_num)]
  decide

theorem formatSeq_seven : formatSeq 7 = "0007" := by
  unfold formatSeq decimalString
  rw [digits10_small 7 (by norm_num) (by norm_num)]
  decide

/-! ### Credential store (internal/user) and handlers -/

/-- A `users` row of the richer schema: email (primary key), plaintext
password, the allocator pfx code, and the active organization foreign key. -/
structure User where
  email : String
  password : String
  pfx : String
  activeOrgId : Nat
deriving DecidableEq

/-- The `users` table. The email column is the primary key, so at most one
row per email. -/
abbrev UserTable := List User

/-- `db.First(&user, "email = ?", email)`: the first row with that email. -/
def findUser : UserTable → String → Option User
  | [], _ => none
  | u :: t, e => if u.email = e then some u else findUser t e

/-- Typed errors of the user service, plus the generic store failures the
service passes through. -/
inductive UserErr where
  | userAlreadyExists
  | invalidCredentials
  | userNotFound
  | emptyEmail
  | emptyPassword
  | storeFailure
deriving DecidableEq

/-- `ValidateUser` (identical in both source variants): look up by email;
a lookup miss yields `ErrInvalidCredentials`, a byte-exact string
comparison failure of the stored plaintext password yields
`ErrInvalidCredentials`, otherwise success (`nil` error, modelled `none`). -/
def validateUser (db : UserTable) (email password : String) : Option UserErr :=
  match findUser db email with
  | none => some .invalidCredentials
  | some u => if u.password = password then none else some .invalidCredentials

/-- An `organizations` row. -/
structure Organization where
  id : Nat
  name : String
deriving DecidableEq

/-- An `organization_users` junction row. -/
structure OrgUser where
  organizationId : Nat
  userEmail : String
deriving DecidableEq

/-- The relational state touched by the richer `CreateUser`: organizations,
users, the junction table, and the auto-increment source for organization
ids. -/
structure DB where
  orgs : List Organization
  users : List User
  orgUsers : List OrgUser
  nextOrgId : Nat
deriving DecidableEq

/-- The slice `email[:3]` of the Go source: defined (the first three
characters) exactly when the email has at least 3 characters; `none`
models the out-of-range slice panic. -/
def emailPfx (email : String) : Option String :=
  if 3 ≤ email.length then some { data := email.data.take 3 } else none

/-- `CreateUser` (richer variant, with organization): validate non-empty
inputs; begin a transaction; create the organization (a store failure
here, injected through `orgCreateFails`, rolls back and is returned);
build the user with `Prefix = email[:3]` — for an email shorter than 3
characters this panics, the deferred `recover` rolls the transaction back
and the function returns a `nil` error, modelled as `.ok db` with the
state unchanged; create the user (a duplicate email rolls back with
`ErrUserAlreadyExists`); append the junction row best-effort (a failure,
injected through `assocAppendFails`, is only logged); commit. On error
nothing is persisted: the caller keeps the original `db`. -/
def createUser (db : DB) (email password : String)
    (orgCreateFails assocAppendFails : Bool) : Except UserErr DB :=
  if email = "" then .error .emptyEmail
  else if password = "" then .error .emptyPassword
  else if orgCreateFails then .error .storeFailure
  else
    let org : Organization := { id := db.nextOrgId, name := email ++ "_org" }
    match emailPfx email with
    | none => .ok db
    | some p =>
      if (findUser db.users email).isSome then .error .userAlreadyExists
      else
        let u : User := { email := email, password := password, pfx := p, activeOrgId := org.id }
        let db1 : DB := { db with
          orgs := db.orgs ++ [org],
          users := db.users ++ [u],
          nextOrgId := db.nextOrgId + 1 }
        if assocAppendFails then .ok db1
        else .ok { db1 with orgUsers := db1.orgUsers ++ [{ organizationId := org.id, userEmail := email }] }

/-- `RefreshToken` handler of the richer build: validate the presented
token with `ValidateRefreshToken`, re-check the subject user still exists,
then issue a brand-new pair via `GenerateTokenPair`. Errors carry the HTTP
status and message written by `c.JSON`. -/
def refreshTokenHandler (secret : String) (accessDur refreshDur : Int) (db : UserTable)
    (now : Int) (tok : Token) : Except (Nat × String) TokenResponse :=
  match validateRefreshToken secret now tok with
  | .error _ => .error (401, "Invalid refresh token")
  | .ok email =>
    match findUser db email with
    | none => .error (401, "User not found")
    | some _ => .ok (generateTokenPair secret accessDur refreshDur email now)

/-- `RefreshToken` handler of the simple build: validate the presented
token with the access-token validator `ValidateToken` (the simple jwt
variant), re-check the subject user still exists, then issue only a new
access token via `GenerateToken`, returned as `{token}`. -/
def refreshTokenHandlerSimple (secret : String) (accessDur : Int) (db : UserTable)
    (now : Int) (tok : Token) : Except (Nat × String) Token :=
  match validateTokenSimple secret now tok with
  | .error _ => .error (401, "Invalid refresh token")
  | .ok email =>
    match findUser db email with
    | none => .error (401, "User not found")
    | some _ => .ok (generateToken secret email accessDur now)

/-! ### Password-reset tokens -/

/-- A `reset_tokens` row: the token string (unique index), the expiry
instant, and the owning user email. -/
structure ResetToken where
  token : String
  expiredAt : Int
  userEmail : String
deriving DecidableEq

/-- The `reset_tokens` table. -/
abbrev ResetTable := List ResetToken

/-- The unique index on the token column: does a row with this token
string exist? -/
def resetTokenExists : ResetTable → String → Bool
  | [], _ => false
  | r :: t, tok => if r.token = tok then true else resetTokenExists t tok

/-- `db.Where("token = ? AND expired_at > ?", tok, now).First(...)`. -/
def findResetToken : ResetTable → String → Int → Option ResetToken
  | [], _, _ => none
  | r :: t, tok, now =>
    if r.token = tok ∧ now < r.expiredAt then some r else findResetToken t tok now

/-- `db.Delete(&resetToken)`: remove the row with the used token string
(the token column is unique, so this is deletion by primary key). -/
def deleteResetToken : ResetTable → String → ResetTable
  | [], _ => []
  | r :: t, tok =>
    if r.token = tok then deleteResetToken t tok else r :: deleteResetToken t tok

/-- Update of the user's password column by email
(`db.Model(&User{}).Where("email = ?", e).Update("password", pw)`). -/
def updatePassword : UserTable → String → String → UserTable
  | [], _, _ => []
  | u :: t, e, pw =>
    (if u.email = e then { u with password := pw } else u) :: updatePassword t e pw

/-- `RequestPasswordReset`: 404 when the user does not exist; otherwise
build the token `"reset_" + unix-seconds` expiring in 5 minutes and
`Create` it — the unique index makes the insert fail when the same token
string already exists; no prior reset token of the user is deleted. -/
def requestPasswordReset (db : UserTable) (rt : ResetTable) (username : String)
    (now : Int) : Except (Nat × String) ResetTable :=
  match findUser db username with
  | none => .error (404, "User not found")
  | some u =>
    let tokenStr := "reset_" ++ toString now
    if resetTokenExists rt tokenStr then .error (500, "Failed to create reset token")
    else .ok (rt ++ [{ token := tokenStr, expiredAt := now + 300, userEmail := u.email }])

/-- `SetNewPassword`: look up an unexpired row for the presented token
(400 when absent), set the owner's password to the new plaintext value,
and delete the used reset token. -/
def setNewPassword (db : UserTable) (rt : ResetTable) (tokenStr newPassword : String)
    (now : Int) : Except (Nat × String) (UserTable × ResetTable) :=
  match findResetToken rt tokenStr now with
  | none => .error (400, "Invalid or expired token")
  | some r => .ok (updatePassword db r.userEmail newPassword, deleteResetToken rt r.token)

/-- The number of live (unexpired) reset tokens a user owns at instant
`now` — the quantity the at-most-one-live-token invariant speaks about. -/
def liveResetTokens : ResetTable → String → Int → Nat
  | [], _, _ => 0
  | r :: t, email, now =>
    (if r.userEmail = email ∧ now < r.expiredAt then 1 else 0) + liveResetTokens t email now

/-! ### Concrete sample data used by the witnesses and counterexamples -/

/-- A registered user, as in the spec's end-to-end scenario. -/
def aliceUser : User :=
  { email := "alice@example.com", password := "password123", pfx := "ali", activeOrgId := 1 }

/-- A store holding one user, for exercising the credential oracle. -/
def oracleDb : UserTable :=
  [{ email := "real@x.com", password := "correct", pfx := "rea", activeOrgId := 1 }]

/-- A live (unexpired at instant 200) reset token already stored for alice. -/
def staleReset : ResetToken :=
  { token := "reset_100", expiredAt := 400, userEmail := "alice@example.com" }

/-- The reset token `RequestPasswordReset` creates at instant 200. -/
def newReset200 : ResetToken :=
  { token := "reset_200", expiredAt := 500, userEmail := "alice@example.com" }

/-- An empty relational state for `createUser`. -/
def emptyDB : DB := { orgs := [], users := [], orgUsers := [], nextOrgId := 1 }

/-- A relational state already holding alice, for the duplicate-email case. -/
def dbWithAlice : DB := { orgs := [], users := [aliceUser], orgUsers := [], nextOrgId := 5 }

theorem lookupCounter_insert (t : CounterTable) (p : String) (n : Nat) :
    lookupCounter (insertCounter t p n) p = some n := by
  simp [lookupCounter, insertCounter]

theorem lookupCounter_set (t : CounterTable) (p : String) (n m : Nat)
    (h : lookupCounter t p = some m) :
    lookupCounter (setCounter t p n) p = some n := by
  induction t with
  | nil => simp [lookupCounter] at h
  | cons a t ih =>
    by_cases hp : a.1 = p
    · simp [setCounter, hp, lookupCounter]
    · simp only [lookupCounter, hp, if_false] at h
      simp [setCounter, hp, lookupCounter, ih h]

theorem findResetToken_found (rt : ResetTable) (tok : String) (now : Int) (r : ResetToken)
    (h : findResetToken rt tok now = some r) : r.token = tok ∧ now < r.expiredAt := by
  induction rt with
  | nil => simp [findResetToken] at h
  | cons a t ih =>
    unfold findResetToken at h
    by_cases ha : a.token = tok ∧ now < a.expiredAt
    · rw [if_pos ha] at h
      simp only [Option.some.injEq] at h
      subst h
      exact ha
    · rw [if_neg ha] at h
      exact ih h

theorem resetTokenExists_delete (rt : ResetTable) (tok : String) :
    resetTokenExists (deleteResetToken rt tok) tok = false := by
  induction rt with
  | nil => rfl
  | cons a t ih =>
    unfold deleteResetToken
    by_cases ha : a.token = tok
    · rw [if_pos ha]; exact ih
    · rw [if_neg ha]; unfold resetTokenExists; rw [if_neg ha]; exact ih

/-- Claim C1: for every prefix the first allocation by `getNextID` uses
sequence number 1 (no pre-increment) and returns `"0001"`, persisting 1;
every subsequent allocation returns the stored counter incremented by 1,
which is persisted; the emitted string is the sequence zero-padded to a
fixed width of 4 decimal digits, and values ≥ 10000 are emitted in full
with more digits, neither rejected nor capped. -/
theorem getNextID_spec (t : CounterTable) (p : String) :
    (lookupCounter t p = none →
      (getNextID t p).1 = "0001" ∧
      lookupCounter (getNextID t p).2 p = some 1) ∧
    (∀ n, lookupCounter t p = some n →
      (getNextID t p).1 = formatSeq (n + 1) ∧
      lookupCounter (getNextID t p).2 p = some (n + 1)) ∧
    (∀ n, n ≠ 0 → n < 10000 → (formatSeq n).length = 4) ∧
    (∀ n, 10000 ≤ n → formatSeq n = decimalString n ∧ 5 ≤ (formatSeq n).length) := by
  refine ⟨?_, ?_, formatSeq_length4, formatSeq_wide⟩
  · intro h
    have hg : getNextID t p = (formatSeq 1, insertCounter t p 1) := by
      unfold getNextID; rw [h]
    exact ⟨by rw [hg]; exact formatSeq_one, by rw [hg]; exact lookupCounter_insert t p 1⟩
  · intro n h
    have hg : getNextID t p = (formatSeq (n + 1), setCounter t p (n + 1)) := by
      unfold getNextID; rw [h]
    exact ⟨by rw [hg], by rw [hg]; exact lookupCounter_set t p (n + 1) n h⟩

theorem getNextID_spec_witness :
    ((getNextID [] "ABC").1 = "0001" ∧
      lookupCounter (getNextID [] "ABC").2 "ABC" = some 1) ∧
    ((getNextID [("ABC", 1)] "ABC").1 = formatSeq 2 ∧
      lookupCounter (getNextID [("ABC", 1)] "ABC").2 "ABC" = some 2) ∧
    (formatSeq 9999).length = 4 ∧
    5 ≤ (formatSeq 10000).length :=
  ⟨(getNextID_spec [] "ABC").1 (by decide),
   (getNextID_spec [("ABC", 1)] "ABC").2.1 1 (by decide),
   (getNextID_spec [] "ABC").2.2.1 9999 (by decide) (by decide),
   ((getNextID_spec [] "ABC").2.2.2 10000 (by decide)).2⟩

/-- Claim C2: given a valid signature and unexpired expiry, `validateToken`
rejects any token whose `token_type` claim is present and differs from
`"access"`, `validateRefreshToken` rejects any whose kind is present and
differs from `"refresh"`, and a legacy token carrying no kind claim is
accepted by both validators. -/
theorem validateToken_kind_spec (secret : String) (now : Int) (tok : Token)
    (hsig : tok.signedWith = secret) (hnow : now < tok.claims.exp) :
    (∀ t, tok.claims.tokenType = some t → t ≠ "access" →
      validateToken secret now tok = .error .invalidKey) ∧
    (∀ t, tok.claims.tokenType = some t → t ≠ "refresh" →
      validateRefreshToken secret now tok = .error .invalidKey) ∧
    (∀ e, tok.claims.tokenType = none → tok.claims.email = some e →
      validateToken secret now tok = .ok e ∧ validateRefreshToken secret now tok = .ok e) := by
  have hparse : jwtParse secret now tok = .ok tok.claims := by
    unfold jwtParse
    rw [if_neg (by simp [hsig]), if_neg (by omega)]
  refine ⟨?_, ?_, ?_⟩
  · intro t ht hne
    simp [validateToken, hparse, ht, hne]
  · intro t ht hne
    simp [validateRefreshToken, hparse, ht, hne]
  · intro e ht he
    constructor
    · simp [validateToken, hparse, ht, he]
    · simp [validateRefreshToken, hparse, ht, he]

theorem validateToken_kind_spec_witness :
    validateToken "secret" 0 (generateRefreshToken "secret" 86400 "a@b.c" 0) =
      .error .invalidKey ∧
    validateRefreshToken "secret" 0 (generateAccessToken "secret" 900 "a@b.c" 0) =
      .error .invalidKey ∧
    validateToken "secret" 0 (generateToken "secret" "a@b.c" 900 0) = .ok "a@b.c" ∧
    validateRefreshToken "secret" 0 (generateToken "secret" "a@b.c" 900 0) = .ok "a@b.c" :=
  ⟨(validateToken_kind_spec "secret" 0 (generateRefreshToken "secret" 86400 "a@b.c" 0)
      (by decide) (by decide)).1 "refresh" (by decide) (by decide),
   (validateToken_kind_spec "secret" 0 (generateAccessToken "secret" 900 "a@b.c" 0)
      (by decide) (by decide)).2.1 "access" (by decide) (by decide),
   ((validateToken_kind_spec "secret" 0 (generateToken "secret" "a@b.c" 900 0)
      (by decide) (by decide)).2.2 "a@b.c" (by decide) (by decide)).1,
   ((validateToken_kind_spec "secret" 0 (generateToken "secret" "a@b.c" 900 0)
      (by decide) (by decide)).2.2 "a@b.c" (by decide) (by decide)).2⟩

/-- Claim C8: decoding an encoded claim set returns the original claims
when evaluated before the expiry instant (timestamps are already in
seconds, the granularity the code persists), and `validateToken` applied
to `generateToken email d` returns exactly `email` for every email string
and positive duration `d`, when evaluated before expiry. -/
theorem codec_round_trip_spec (secret : String) (c : Claims) (now : Int)
    (email : String) (d issuedAt checkAt : Int) :
    (now < c.exp → decode secret now (encode secret c) = .ok c) ∧
    (0 < d → checkAt < issuedAt + d →
      validateToken secret checkAt (generateToken secret email d issuedAt) = .ok email) := by
  constructor
  · intro h
    simp [decode, encode, jwtParse, not_le.mpr h]
  · intro hd h
    simp [validateToken, generateToken, jwtParse, not_le.mpr h]

theorem codec_round_trip_spec_witness :
    decode "secret" 0 (encode "secret" { email := some "a@b.c", tokenType := some "refresh", exp := 86400 }) =
      .ok { email := some "a@b.c", tokenType := some "refresh", exp := 86400 } ∧
    validateToken "secret" 100 (generateToken "secret" "a@b.c" 900 0) = .ok "a@b.c" :=
  ⟨(codec_round_trip_spec "secret"
      { email := some "a@b.c", tokenType := some "refresh", exp := 86400 } 0 "a@b.c" 900 0 100).1
      (by decide),
   (codec_round_trip_spec "secret"
      { email := some "a@b.c", tokenType := some "refresh", exp := 86400 } 0 "a@b.c" 900 0 100).2
      (by decide) (by decide)⟩

/-- Claim C3 counterexample: the refresh handler of the simple build
(`internal/handlers/handlers.go`), on a successful call — here presented
with the refresh token its own login issues via `GenerateTokenPair` —
returns only a single freshly generated access token (`{token}`); no new
refresh token is issued, so the claim that every successful Refresh
returns a full new pair `{token, refresh_token}` is false of that cited
implementation. -/
theorem refresh_rotation_counterexample :
    refreshTokenHandlerSimple "secret" 900 [aliceUser] 0
        (generateTokenPairSimple "secret" 900 86400 "alice@example.com" 0).refreshToken =
      .ok (generateToken "secret" "alice@example.com" 900 0) := by
  rfl

/-- Claim C3 (amended): the refresh handler of the richer build (part_001)
validates the presented token with `ValidateRefreshToken` and, on
success, issues a brand-new pair — a fresh access token and a fresh
refresh token (full rotation); the refresh handler of the simple build
(`internal/handlers/handlers.go`) instead validates the presented token
with the access-token validator and on success issues only a new access
token, with no new refresh token. -/
theorem refresh_rotation_spec (secret : String) (aDur rDur : Int) (db : UserTable)
    (now : Int) (tok : Token) :
    (∀ e u, validateRefreshToken secret now tok = .ok e → findUser db e = some u →
      refreshTokenHandler secret aDur rDur db now tok =
        .ok { token := generateAccessToken secret aDur e now,
              refreshToken := generateRefreshToken secret rDur e now }) ∧
    (∀ e u, validateTokenSimple secret now tok = .ok e → findUser db e = some u →
      refreshTokenHandlerSimple secret aDur db now tok =
        .ok (generateToken secret e aDur now)) := by
  constructor
  · intro e u hv hf
    simp [refreshTokenHandler, hv, hf, generateTokenPair]
  · intro e u hv hf
    simp [refreshTokenHandlerSimple, hv, hf]

theorem refresh_rotation_spec_witness :
    refreshTokenHandler "secret" 900 86400 [aliceUser] 0
        (generateRefreshToken "secret" 86400 "alice@example.com" 0) =
      .ok { token := generateAccessToken "secret" 900 "alice@example.com" 0,
            refreshToken := generateRefreshToken "secret" 86400 "alice@example.com" 0 } ∧
    refreshTokenHandlerSimple "secret" 900 [aliceUser] 0
        (generateToken "secret" "alice@example.com" 86400 0) =
      .ok (generateToken "secret" "alice@example.com" 900 0) :=
  ⟨(refresh_rotation_spec "secret" 900 86400 [aliceUser] 0
      (generateRefreshToken "secret" 86400 "alice@example.com" 0)).1
      "alice@example.com" aliceUser (by rfl) (by rfl),
   (refresh_rotation_spec "secret" 900 86400 [aliceUser] 0
      (generateToken "secret" "alice@example.com" 86400 0)).2
      "alice@example.com" aliceUser (by rfl) (by rfl)⟩

/-- Claim C4: in both refresh handlers, when the presented token validates
but the subject user no longer exists in the store, the call fails with
HTTP 401 and message "User not found" and no tokens are issued; moreover
every successful refresh implies the existence re-check passed, i.e. the
subject user was found in the store before tokens were issued. -/
theorem refresh_user_gone_spec (secret : String) (aDur rDur : Int) (db : UserTable)
    (now : Int) (tok : Token) :
    (∀ e, validateRefreshToken secret now tok = .ok e → findUser db e = none →
      refreshTokenHandler secret aDur rDur db now tok = .error (401, "User not found")) ∧
    (∀ resp, refreshTokenHandler secret aDur rDur db now tok = .ok resp →
      ∃ e u, validateRefreshToken secret now tok = .ok e ∧ findUser db e = some u) ∧
    (∀ e, validateTokenSimple secret now tok = .ok e → findUser db e = none →
      refreshTokenHandlerSimple secret aDur db now tok = .error (401, "User not found")) ∧
    (∀ t2, refreshTokenHandlerSimple secret aDur db now tok = .ok t2 →
      ∃ e u, validateTokenSimple secret now tok = .ok e ∧ findUser db e = some u) := by
  refine ⟨?_, ?_, ?_, ?_⟩
  · intro e hv hf
    simp [refreshTokenHandler, hv, hf]
  · intro resp hok
    unfold refreshTokenHandler at hok
    cases hv : validateRefreshToken secret now tok with
    | error err => rw [hv] at hok; simp at hok
    | ok e =>
      rw [hv] at hok
      cases hf : findUser db e with
      | none => simp [hf] at hok
      | some u => exact ⟨e, u, rfl, hf⟩
  · intro e hv hf
    simp [refreshTokenHandlerSimple, hv, hf]
  · intro t2 hok
    unfold refreshTokenHandlerSimple at hok
    cases hv : validateTokenSimple secret now tok with
    | error err => rw [hv] at hok; simp at hok
    | ok e =>
      rw [hv] at hok
      cases hf : findUser db e with
      | none => simp [hf] at hok
      | some u => exact ⟨e, u, rfl, hf⟩

theorem refresh_user_gone_spec_witness :
    refreshTokenHandler "secret" 900 86400 [] 0
        (generateRefreshToken "secret" 86400 "alice@example.com" 0) =
      .error (401, "User not found") ∧
    refreshTokenHandlerSimple "secret" 900 [] 0
        (generateToken "secret" "alice@example.com" 86400 0) =
      .error (401, "User not found") :=
  ⟨(refresh_user_gone_spec "secret" 900 86400 [] 0
      (generateRefreshToken "secret" 86400 "alice@example.com" 0)).1
      "alice@example.com" (by rfl) (by rfl),
   (refresh_user_gone_spec "secret" 900 86400 [] 0
      (generateToken "secret" "alice@example.com" 86400 0)).2.2.1
      "alice@example.com" (by rfl) (by rfl)⟩

/-- Claim C5: for every stored user set, `ValidateUser` returns the same
error value `ErrInvalidCredentials` both when the looked-up email does not
exist and when the email exists but the supplied password differs from
the stored plaintext password under byte-exact string comparison; the
result does not reveal which check failed. -/
theorem validateUser_oracle_spec (db : UserTable) (email password : String) :
    (findUser db email = none →
      validateUser db email password = some .invalidCredentials) ∧
    (∀ u, findUser db email = some u → u.password ≠ password →
      validateUser db email password = some .invalidCredentials) := by
  constructor
  · intro h
    simp [validateUser, h]
  · intro u h hne
    simp [validateUser, h, hne]

theorem validateUser_oracle_spec_witness :
    validateUser oracleDb "nobody@x.com" "anything" = some .invalidCredentials ∧
    validateUser oracleDb "real@x.com" "wrongpassword" = some .invalidCredentials :=
  ⟨(validateUser_oracle_spec oracleDb "nobody@x.com" "anything").1 (by rfl),
   (validateUser_oracle_spec oracleDb "real@x.com" "wrongpassword").2
      { email := "real@x.com", password := "correct", pfx := "rea", activeOrgId := 1 }
      (by rfl) (by decide)⟩

/-- Claim C6 counterexample: with a live reset token already stored for
alice, `RequestPasswordReset` creates a second token without deleting the
prior one, leaving two live reset tokens for the same user — so creating
a new reset token does not invalidate prior ones. -/
theorem reset_token_counterexample :
    requestPasswordReset [aliceUser] [staleReset] "alice@example.com" 200 =
      .ok [staleReset, newReset200] ∧
    liveResetTokens [staleReset, newReset200] "alice@example.com" 200 = 2 := by
  constructor <;> rfl

/-- Claim C6 (amended): creating a new reset token does not invalidate
prior reset tokens of the user — every prior row survives the creation,
so several live reset tokens per user can coexist; a reset token is
deleted on successful use: `SetNewPassword` removes the used token and
afterwards no row with that token string remains. -/
theorem reset_token_spec (db : UserTable) (rt : ResetTable) (username : String) (now : Int) :
    (∀ rt2, requestPasswordReset db rt username now = .ok rt2 →
      ∃ u, findUser db username = some u ∧
        rt2 = rt ++ [{ token := "reset_" ++ toString now, expiredAt := now + 300,
                       userEmail := u.email }]) ∧
    (∀ tokenStr newPassword out, setNewPassword db rt tokenStr newPassword now = .ok out →
      out.2 = deleteResetToken rt tokenStr ∧
      resetTokenExists out.2 tokenStr = false) := by
  constructor
  · intro rt2 hok
    unfold requestPasswordReset at hok
    cases hu : findUser db username with
    | none => rw [hu] at hok; simp at hok
    | some u =>
      rw [hu] at hok
      cases hex : resetTokenExists rt ("reset_" ++ toString now) with
      | true => simp [hex] at hok
      | false =>
        simp [hex] at hok
        exact ⟨u, rfl, hok.symm⟩
  · intro tokenStr newPassword out hok
    unfold setNewPassword at hok
    cases hr : findResetToken rt tokenStr now with
    | none => rw [hr] at hok; simp at hok
    | some r =>
      rw [hr] at hok
      simp only [Except.ok.injEq] at hok
      have htok : r.token = tokenStr := (findResetToken_found rt tokenStr now r hr).1
      rw [← hok]
      rw [htok]
      exact ⟨rfl, resetTokenExists_delete rt tokenStr⟩

theorem reset_token_spec_witness :
    (∃ u, findUser [aliceUser] "alice@example.com" = some u ∧
      ([staleReset, newReset200] : ResetTable) =
        [staleReset] ++ [{ token := "reset_" ++ toString (200 : Int),
                           expiredAt := (200 : Int) + 300, userEmail := u.email }]) ∧
    ((updatePassword [aliceUser] "alice@example.com" "npw", ([] : ResetTable)).2 =
        deleteResetToken [staleReset] "reset_100" ∧
      resetTokenExists
        (updatePassword [aliceUser] "alice@example.com" "npw", ([] : ResetTable)).2
        "reset_100" = false) :=
  ⟨(reset_token_spec [aliceUser] [staleReset] "alice@example.com" 200).1
      [staleReset, newReset200] (by rfl),
   (reset_token_spec [aliceUser] [staleReset] "alice@example.com" 200).2
      "reset_100" "npw"
      (updatePassword [aliceUser] "alice@example.com" "npw", ([] : ResetTable)) (by rfl)⟩

/-- Claim C7: in the richer registration variant, `CreateUser` creates (in
one transaction, rolled back as a whole on error — modelled by the error
result carrying no new state) an Organization and a User whose active
organization references it and whose pfx code is the first 3 characters
of the email; a failing write of the junction row (`assocAppendFails`) is
non-fatal and registration still succeeds, while a failing Organization
write or a duplicate-email User write aborts the whole registration. -/
theorem createUser_spec (db : DB) (email password : String) (assocFails : Bool)
    (he : email ≠ "") (hp : password ≠ "") (hlen : 3 ≤ email.length) :
    createUser db email password true assocFails = .error .storeFailure ∧
    ((findUser db.users email).isSome = true →
      createUser db email password false assocFails = .error .userAlreadyExists) ∧
    (findUser db.users email = none →
      createUser db email password false assocFails = .ok
        ⟨db.orgs ++ [⟨db.nextOrgId, email ++ "_org"⟩],
         db.users ++ [⟨email, password, ⟨email.data.take 3⟩, db.nextOrgId⟩],
         (if assocFails then db.orgUsers else db.orgUsers ++ [⟨db.nextOrgId, email⟩]),
         db.nextOrgId + 1⟩) := by
  have hpfx : emailPfx email = some { data := email.data.take 3 } := by
    unfold emailPfx; rw [if_pos hlen]
  refine ⟨?_, ?_, ?_⟩
  · simp [createUser, he, hp]
  · intro hdup
    simp [createUser, he, hp, hpfx, hdup]
  · intro hdup
    cases assocFails <;> simp [createUser, he, hp, hpfx, hdup]

theorem createUser_spec_witness :
    createUser emptyDB "alice@example.com" "password123" true true = .error .storeFailure ∧
    createUser dbWithAlice "alice@example.com" "password123" false false =
      .error .userAlreadyExists ∧
    createUser emptyDB "alice@example.com" "password123" false true = .ok
      ⟨[⟨1, "alice@example.com" ++ "_org"⟩],
       [⟨"alice@example.com", "password123", ⟨"alice@example.com".data.take 3⟩, 1⟩],
       [],
       2⟩ := by
  have h1 := createUser_spec emptyDB "alice@example.com" "password123" true
      (by decide) (by decide) (by decide)
  have h2 := createUser_spec dbWithAlice "alice@example.com" "password123" false
      (by decide) (by decide) (by decide)
  have h3 := createUser_spec emptyDB "alice@example.com" "password123" true
      (by decide) (by decide) (by decide)
  refine ⟨h1.1, h2.2.1 (by rfl), ?_⟩
  have := h3.2.2 (by rfl)
  simpa [emptyDB] using this

/-- Claim C9 (code evaluated at the failing schedule): the read-modify-write
of `getNextID` is NOT serialized per prefix by the transaction boundary
alone; under the database's default READ COMMITTED isolation, two
concurrent allocations for prefix "ABC" that both run their `SELECT`
before either `UPDATE` commits both emit the same sequence string "0006"
from a counter at 5, and the counter ends at 6 after two allocations —
whereas any serial execution yields the distinct, contiguous "0006" then
"0007". -/
theorem allocator_lost_update :
    getNextIDPairInterleaved [("ABC", 5)] "ABC" = ("0006", "0006", [("ABC", 6)]) ∧
    getNextID [("ABC", 5)] "ABC" = ("0006", [("ABC", 6)]) ∧
    getNextID [("ABC", 6)] "ABC" = ("0007", [("ABC", 7)]) := by
  refine ⟨?_, ?_, ?_⟩ <;>
    simp [getNextIDPairInterleaved, getNextID, commitAlloc, lookupCounter, setCounter,
      insertCounter, formatSeq_six, formatSeq_seven]

/-- Claim C10: the richer `CreateUser` slices `email[:3]` guarded only by a
non-emptiness check; the slice is in bounds exactly when the email has at
least 3 characters (in which case `emailPfx` is defined and the operation
is safe), while for every email of length 1 or 2 the slice panics, the
deferred `recover` rolls the transaction back and swallows the panic, and
`CreateUser` returns a nil error — reported success with the store
unchanged, no user or organization created. -/
theorem createUser_short_email_spec (db : DB) (email password : String)
    (assocFails : Bool) (hp : password ≠ "") :
    (email.length = 0 → createUser db email password false assocFails = .error .emptyEmail) ∧
    (1 ≤ email.length → email.length ≤ 2 →
      createUser db email password false assocFails = .ok db) ∧
    (3 ≤ email.length → emailPfx email = some { data := email.data.take 3 }) := by
  refine ⟨?_, ?_, ?_⟩
  · intro h0
    have hemp : email = "" := by
      cases email with
      | mk l =>
        cases l with
        | nil => rfl
        | cons c cs => simp [String.length] at h0
    simp [createUser, hemp]
  · intro h1 h2
    have hne : email ≠ "" := by
      intro h
      rw [h] at h1
      exact absurd h1 (by decide)
    have hpfx : emailPfx email = none := by
      unfold emailPfx; rw [if_neg (by omega)]
    simp [createUser, hne, hp, hpfx]
  · intro h3
    unfold emailPfx; rw [if_pos h3]

theorem createUser_short_email_spec_witness :
    createUser emptyDB "" "password123" false false = .error .emptyEmail ∧
    createUser emptyDB "ab" "password123" false false = .ok emptyDB ∧
    emailPfx "alice@example.com" = some { data := "alice@example.com".data.take 3 } :=
  ⟨(createUser_short_email_spec emptyDB "" "password123" false (by decide)).1 (by decide),
   (createUser_short_email_spec emptyDB "ab" "password123" false (by decide)).2.1
      (by decide) (by decide),
   (createUser_short_email_spec emptyDB "alice@example.com" "password123" false
      (by decide)).2.2 (by decide)⟩

end SchwiftyBox
